import Mathlib

/-!
Verification of the Deriv risk-evaluation engine
(`src/services/riskEngine.js`).

The engine is a JS class with a mutable threshold configuration and a
run-scoped warning list.  We embed it shallowly: the instance state is an
explicit `EngineState` record, and every method becomes a function from the
state (plus its arguments) to a new state and/or a result.  JS numbers are
modelled as rationals (`ℚ`); the one place where the source can divide by
zero (the open-position exposure check) is modelled with an extended number
type `ExtNum` that represents the IEEE values `Infinity`, `-Infinity` and
`NaN` produced by JS division by zero, so that behaviour is faithfully
representable.  The wall clock and local time zone used by the
overtrading / unusual-hours detectors are abstracted as an environment
record `Env` supplying the calendar-day and hour-of-day functions.
-/

namespace RiskEngineModel

/-- Severity levels, `RiskLevel` in riskEngine.js. -/
inductive RiskLevel where
  | low
  | medium
  | high
  | critical
deriving DecidableEq, Repr

/-- Warning categories, `RiskType` in riskEngine.js. -/
inductive RiskType where
  | overtrading
  | high_loss_streak
  | large_position
  | rapid_trading
  | martingale_pattern
  | balance_depletion
  | bot_activity
  | unusual_hours
deriving DecidableEq, Repr

/-- A closed historical trade: `purchase_time` (Unix seconds), the stake
`buy_price` and the payout `sell_price`. -/
structure Trade where
  purchase_time : ℚ
  buy_price : ℚ
  sell_price : ℚ
deriving DecidableEq, Repr

/-- An open position: stake and opaque contract identifier. -/
structure Position where
  buy_price : ℚ
  contract_id : ℕ
deriving DecidableEq, Repr

/-- The threshold configuration (`this.thresholds`). -/
structure Thresholds where
  maxDailyTrades : ℚ
  maxLossStreak : ℚ
  maxPositionPercent : ℚ
  minTimeBetweenTrades : ℚ
  martingaleMultiplier : ℚ
  balanceDropPercent : ℚ
  botTradeInterval : ℚ
deriving DecidableEq, Repr

/-- Constructor defaults from riskEngine.js lines 25-33
(the multiplier 1.8 is the rational 9/5). -/
def defaultThresholds : Thresholds where
  maxDailyTrades := 50
  maxLossStreak := 5
  maxPositionPercent := 10
  minTimeBetweenTrades := 10
  martingaleMultiplier := 9 / 5
  balanceDropPercent := 20
  botTradeInterval := 2

/-- A warning emitted by one of the seven historical detectors.  The
human-readable `message` string is presentation-only and not modelled;
`isBotLikely` is only ever set by the bot-activity detector (absence of the
JS field is modelled as `false`). -/
structure Warning where
  type : RiskType
  level : RiskLevel
  value : ℚ
  isBotLikely : Bool
deriving DecidableEq, Repr

/-- Extended JS number: a finite rational, or one of the IEEE values
`Infinity`, `-Infinity`, `NaN` that JS division by zero produces. -/
inductive ExtNum where
  | fin (q : ℚ)
  | posInf
  | negInf
  | nan
deriving DecidableEq, Repr

/-- JS division `a / b` on numbers: finite unless `b = 0`, in which case the
result is `Infinity`, `-Infinity` or `NaN` according to the sign of `a`. -/
def extDiv (a b : ℚ) : ExtNum :=
  if b = 0 then
    if 0 < a then ExtNum.posInf else if a < 0 then ExtNum.negInf else ExtNum.nan
  else ExtNum.fin (a / b)

/-- JS multiplication by the positive constant 100 (sign classes fixed). -/
def extMul100 : ExtNum → ExtNum
  | ExtNum.fin q => ExtNum.fin (q * 100)
  | ExtNum.posInf => ExtNum.posInf
  | ExtNum.negInf => ExtNum.negInf
  | ExtNum.nan => ExtNum.nan

/-- JS comparison `e > c` against a finite number: `Infinity > c` is true,
`-Infinity > c` and `NaN > c` are false. -/
def extGt (e : ExtNum) (c : ℚ) : Bool :=
  match e with
  | ExtNum.fin q => decide (c < q)
  | ExtNum.posInf => true
  | ExtNum.negInf => false
  | ExtNum.nan => false

/-- A warning emitted by the open-position exposure check; its `value`
(the position percent) can be non-finite when `balance = 0`. -/
structure PositionWarning where
  type : RiskType
  level : RiskLevel
  value : ExtNum
  contractId : ℕ
deriving DecidableEq, Repr

/-- The engine instance state: the threshold configuration and the
run-scoped warning list (`this.thresholds`, `this.warnings`). -/
structure EngineState where
  thresholds : Thresholds
  warnings : List Warning
deriving DecidableEq, Repr

/-- A freshly constructed engine (`new RiskEngine()`). -/
def newEngineState : EngineState where
  thresholds := defaultThresholds
  warnings := []

/-- The evaluation environment abstracting `new Date()`: the identifier of
the current calendar day, and the functions taking a Unix-seconds timestamp
to its local calendar day and local hour of day. -/
structure Env where
  today : ℤ
  dayOf : ℚ → ℤ
  hourOf : ℚ → ℤ

/-- `this.warnings.push(w)` as a state update. -/
def pushWarning (s : EngineState) (w : Warning) : EngineState :=
  { s with warnings := s.warnings ++ [w] }

/-- A trade is a loss exactly when `sell_price < buy_price` (riskEngine.js
line 87); a tie is not a loss. -/
def isLoss (t : Trade) : Bool :=
  decide (t.sell_price < t.buy_price)

/-- Stable ascending sort by `purchase_time`, the JS
`[...trades].sort((a, b) => a.purchase_time - b.purchase_time)`.
JS `Array.prototype.sort` is required to be stable, and a stable sort by a
total preorder key is unique, so insertion sort gives the same list. -/
def sortByTime (ts : List Trade) : List Trade :=
  List.insertionSort (fun a b => a.purchase_time ≤ b.purchase_time) ts

/-- The `for (let i = 1; i < list.length; i++)` loops of riskEngine.js:
count the adjacent pairs of the list satisfying `p`. -/
def adjacentCount (p : Trade → Trade → Bool) : List Trade → ℕ
  | a :: b :: rest => (if p a b then 1 else 0) + adjacentCount p (b :: rest)
  | _ => 0

/-- `checkOvertrading` (riskEngine.js lines 66-80): count the trades whose
purchase time falls on the evaluator's current calendar day and warn (HIGH)
when that count exceeds `maxDailyTrades`. -/
def checkOvertrading (s : EngineState) (env : Env) (trades : List Trade) : EngineState :=
  let todayTrades := trades.filter (fun t => decide (env.dayOf t.purchase_time = env.today))
  if (todayTrades.length : ℚ) > s.thresholds.maxDailyTrades then
    pushWarning s ⟨RiskType.overtrading, RiskLevel.high, (todayTrades.length : ℚ), false⟩
  else s

/-- One step of the loss-streak scan (riskEngine.js lines 86-93): the pair
is (currentStreak, maxStreak). -/
def lossStreakStep (p : ℕ × ℕ) (t : Trade) : ℕ × ℕ :=
  if isLoss t then (p.1 + 1, max p.2 (p.1 + 1)) else (0, p.2)

/-- `checkLossStreak` (riskEngine.js lines 82-103): scan the trades in their
given order, warn when the maximum consecutive-loss streak reaches
`maxLossStreak`; CRITICAL from 8 losses up, else HIGH. -/
def checkLossStreak (s : EngineState) (trades : List Trade) : EngineState :=
  let maxStreak := (trades.foldl lossStreakStep (0, 0)).2
  if (maxStreak : ℚ) ≥ s.thresholds.maxLossStreak then
    pushWarning s ⟨RiskType.high_loss_streak,
      if 8 ≤ maxStreak then RiskLevel.critical else RiskLevel.high,
      (maxStreak : ℚ), false⟩
  else s

/-- `checkRapidTrading` (riskEngine.js lines 105-124): sort by time, count
adjacent gaps strictly below `minTimeBetweenTrades`, warn (MEDIUM) when the
count exceeds 5. -/
def checkRapidTrading (s : EngineState) (trades : List Trade) : EngineState :=
  let sortedTrades := sortByTime trades
  let rapidCount := adjacentCount
    (fun a b => decide (b.purchase_time - a.purchase_time < s.thresholds.minTimeBetweenTrades))
    sortedTrades
  if rapidCount > 5 then
    pushWarning s ⟨RiskType.rapid_trading, RiskLevel.medium, (rapidCount : ℚ), false⟩
  else s

/-- The adjacent-pair condition of the martingale detector (riskEngine.js
lines 135-138): the earlier trade is a loss and the later stake is at least
the earlier stake times the multiplier. -/
def martingalePred (mult : ℚ) (a b : Trade) : Bool :=
  isLoss a && decide (b.buy_price ≥ a.buy_price * mult)

/-- `checkMartingalePattern` (riskEngine.js lines 126-151): sort by time,
count adjacent pairs satisfying `martingalePred`, warn (CRITICAL) when the
count reaches 3. -/
def checkMartingalePattern (s : EngineState) (trades : List Trade) : EngineState :=
  let sortedTrades := sortByTime trades
  let martingaleCount := adjacentCount (martingalePred s.thresholds.martingaleMultiplier)
    sortedTrades
  if martingaleCount ≥ 3 then
    pushWarning s ⟨RiskType.martingale_pattern, RiskLevel.critical, (martingaleCount : ℚ), false⟩
  else s

/-- `checkBalanceDepletion` (riskEngine.js lines 153-166): no-op when
`initialBalance` is absent or zero (the JS falsy guard); otherwise warn when
the percentage drop reaches `balanceDropPercent`, CRITICAL from 50% up. -/
def checkBalanceDepletion (s : EngineState) (currentBalance : ℚ)
    (initialBalance : Option ℚ) : EngineState :=
  match initialBalance with
  | none => s
  | some ib =>
    if ib = 0 then s
    else
      let dropPercent := (ib - currentBalance) / ib * 100
      if dropPercent ≥ s.thresholds.balanceDropPercent then
        pushWarning s ⟨RiskType.balance_depletion,
          if dropPercent ≥ 50 then RiskLevel.critical else RiskLevel.high,
          dropPercent, false⟩
      else s

/-- `checkBotActivity` (riskEngine.js lines 168-188): sort by time, look
only at the first `min(length, 20)` trades, count adjacent gaps of at most
`botTradeInterval` seconds, warn (MEDIUM, `isBotLikely`) when the count
reaches 5. -/
def checkBotActivity (s : EngineState) (trades : List Trade) : EngineState :=
  let sortedTrades := sortByTime trades
  let examined := sortedTrades.take (min sortedTrades.length 20)
  let suspiciousIntervals := adjacentCount
    (fun a b => decide (b.purchase_time - a.purchase_time ≤ s.thresholds.botTradeInterval))
    examined
  if suspiciousIntervals ≥ 5 then
    pushWarning s ⟨RiskType.bot_activity, RiskLevel.medium, (suspiciousIntervals : ℚ), true⟩
  else s

/-- `checkUnusualHours` (riskEngine.js lines 190-204): count trades whose
local hour is in `[0, 6)`, warn (LOW) when there are at least 10. -/
def checkUnusualHours (s : EngineState) (env : Env) (trades : List Trade) : EngineState :=
  let unusualHourTrades := trades.filter
    (fun t => decide (0 ≤ env.hourOf t.purchase_time) && decide (env.hourOf t.purchase_time < 6))
  if unusualHourTrades.length ≥ 10 then
    pushWarning s ⟨RiskType.unusual_hours, RiskLevel.low, (unusualHourTrades.length : ℚ), false⟩
  else s

/-- `analyzeOpenPositions` (riskEngine.js lines 206-224): for each open
position compute `buy_price / balance * 100` (JS semantics, so non-finite
when `balance = 0`) and emit a warning per position above
`maxPositionPercent`, CRITICAL above 25%.  The method writes no instance
field, so the state component of the result is the input state. -/
def analyzeOpenPositions (s : EngineState) (positions : List Position) (balance : ℚ) :
    EngineState × List PositionWarning :=
  (s, positions.filterMap (fun position =>
    let positionPercent := extMul100 (extDiv position.buy_price balance)
    if extGt positionPercent s.thresholds.maxPositionPercent then
      some ⟨RiskType.large_position,
        if extGt positionPercent 25 then RiskLevel.critical else RiskLevel.high,
        positionPercent, position.contract_id⟩
    else none))

/-- The severity-to-points mapping of `calculateOverallRiskScore`
(riskEngine.js lines 230-243). -/
def severityPoints : RiskLevel → ℕ
  | RiskLevel.low => 5
  | RiskLevel.medium => 15
  | RiskLevel.high => 30
  | RiskLevel.critical => 50

/-- `calculateOverallRiskScore` (riskEngine.js lines 226-247): accumulate
the points of the run's warnings and clamp with `Math.min(score, 100)`. -/
def calculateOverallRiskScore (s : EngineState) : ℕ :=
  min (s.warnings.foldl (fun score w => score + severityPoints w.level) 0) 100

/-- `getRiskLevel` (riskEngine.js lines 249-254). -/
def getRiskLevel (score : ℕ) : RiskLevel :=
  if score ≥ 70 then RiskLevel.critical
  else if score ≥ 40 then RiskLevel.high
  else if score ≥ 20 then RiskLevel.medium
  else RiskLevel.low

/-- The per-run result of `analyzeTradeHistory`; `riskLevel` is `none` in
the empty-input short circuit, where the JS object has no such key. -/
structure AnalysisResult where
  warnings : List Warning
  riskScore : ℕ
  riskLevel : Option RiskLevel
deriving DecidableEq, Repr

/-- The detector pipeline of `analyzeTradeHistory` (riskEngine.js lines
49-55), invoked in the fixed source order. -/
def runDetectors (s : EngineState) (env : Env) (trades : List Trade)
    (currentBalance : ℚ) (initialBalance : Option ℚ) : EngineState :=
  let s1 := checkOvertrading s env trades
  let s2 := checkLossStreak s1 trades
  let s3 := checkRapidTrading s2 trades
  let s4 := checkMartingalePattern s3 trades
  let s5 := checkBalanceDepletion s4 currentBalance initialBalance
  let s6 := checkBotActivity s5 trades
  checkUnusualHours s6 env trades

/-- `analyzeTradeHistory` (riskEngine.js lines 42-64): reset the run-scoped
warning list, short-circuit on an absent or empty trade list, otherwise run
the seven detectors and aggregate.  `trades = none` models the JS call with
the argument absent (the `!trades` guard). -/
def analyzeTradeHistory (s : EngineState) (env : Env) (trades : Option (List Trade))
    (currentBalance : ℚ) (initialBalance : Option ℚ) : EngineState × AnalysisResult :=
  let s0 : EngineState := { s with warnings := [] }
  match trades with
  | none => (s0, ⟨[], 0, none⟩)
  | some ts =>
    if ts.isEmpty then (s0, ⟨[], 0, none⟩)
    else
      let s7 := runDetectors s0 env ts currentBalance initialBalance
      let riskScore := calculateOverallRiskScore s7
      (s7, ⟨s7.warnings, riskScore, some (getRiskLevel riskScore)⟩)

/-! ### Specification-side definitions

Independent restatements of the quantities the spec talks about, used to
compare against the detector implementations. -/

/-- Length of the initial run of losses of a trade list. -/
def prefixLossRun (ts : List Trade) : ℕ := (ts.takeWhile isLoss).length

/-- The longest run of consecutive losses: the maximum, over every suffix,
of the length of that suffix's initial loss run. -/
def maxLossRunSpec (ts : List Trade) : ℕ :=
  (ts.tails.map prefixLossRun).foldr max 0

/-- Adjacent-pair count stated via `zip` with the tail, the spec's reading
of the `for (i = 1; ...)` loops. -/
def zipPairCount (p : Trade → Trade → Bool) (l : List Trade) : ℕ :=
  (l.zip l.tail).countP (fun q => p q.1 q.2)

/-- Ordinal rank of a severity level: LOW < MEDIUM < HIGH < CRITICAL. -/
def levelRank : RiskLevel → ℕ
  | RiskLevel.low => 0
  | RiskLevel.medium => 1
  | RiskLevel.high => 2
  | RiskLevel.critical => 3

/-! ### Helper lemmas -/

lemma foldl_severityPoints (l : List Warning) (n : ℕ) :
    l.foldl (fun score w => score + severityPoints w.level) n
      = n + (l.map (fun w => severityPoints w.level)).sum := by
  induction l generalizing n with
  | nil => simp
  | cons w l ih => simp [List.foldl_cons, ih, add_assoc]

lemma calculateOverallRiskScore_eq (s : EngineState) :
    calculateOverallRiskScore s
      = min ((s.warnings.map (fun w => severityPoints w.level)).sum) 100 := by
  simp [calculateOverallRiskScore, foldl_severityPoints]

lemma adjacentCount_eq_zipPairCount (p : Trade → Trade → Bool) (l : List Trade) :
    adjacentCount p l = zipPairCount p l := by
  induction l with
  | nil => rfl
  | cons a l ih =>
    cases l with
    | nil => rfl
    | cons b rest =>
      rw [adjacentCount, ih]
      simp [zipPairCount, List.countP_cons, add_comm]

lemma take_min_length {α : Type} (l : List α) (n : ℕ) :
    l.take (min l.length n) = l.take n := by
  rw [min_comm, ← List.take_take, List.take_length]

lemma maxLossRunSpec_cons (t : Trade) (ts : List Trade) :
    maxLossRunSpec (t :: ts) = max (prefixLossRun (t :: ts)) (maxLossRunSpec ts) := by
  simp [maxLossRunSpec, List.tails_cons]

lemma prefixLossRun_le (ts : List Trade) : prefixLossRun ts ≤ maxLossRunSpec ts := by
  cases ts with
  | nil => simp [prefixLossRun, maxLossRunSpec]
  | cons t ts => rw [maxLossRunSpec_cons]; exact le_max_left _ _

lemma prefixLossRun_cons_pos {t : Trade} (h : isLoss t = true) (ts : List Trade) :
    prefixLossRun (t :: ts) = prefixLossRun ts + 1 := by
  simp [prefixLossRun, List.takeWhile_cons, h]

lemma prefixLossRun_cons_neg {t : Trade} (h : isLoss t = false) (ts : List Trade) :
    prefixLossRun (t :: ts) = 0 := by
  simp [prefixLossRun, List.takeWhile_cons, h]

lemma lossStreak_foldl (ts : List Trade) : ∀ c m : ℕ, c ≤ m →
    (ts.foldl lossStreakStep (c, m)).2
      = max m (max (c + prefixLossRun ts) (maxLossRunSpec ts)) := by
  induction ts with
  | nil =>
    intro c m h
    simp [prefixLossRun, maxLossRunSpec]
    omega
  | cons t ts ih =>
    intro c m h
    rw [List.foldl_cons]
    cases hl : isLoss t with
    | true =>
      have hstep : lossStreakStep (c, m) t = (c + 1, max m (c + 1)) := by
        simp [lossStreakStep, hl]
      rw [hstep, ih (c + 1) (max m (c + 1)) (le_max_right _ _),
        maxLossRunSpec_cons, prefixLossRun_cons_pos hl]
      omega
    | false =>
      have hstep : lossStreakStep (c, m) t = (0, m) := by
        simp [lossStreakStep, hl]
      rw [hstep, ih 0 m (Nat.zero_le _), maxLossRunSpec_cons, prefixLossRun_cons_neg hl]
      have hp := prefixLossRun_le ts
      omega

lemma maxLossRun_eq_scan (ts : List Trade) :
    (ts.foldl lossStreakStep (0, 0)).2 = maxLossRunSpec ts := by
  rw [lossStreak_foldl ts 0 0 le_rfl]
  have := prefixLossRun_le ts
  omega

lemma thresholds_pushWarning (s : EngineState) (w : Warning) :
    (pushWarning s w).thresholds = s.thresholds := rfl

lemma thresholds_checkOvertrading (s : EngineState) (env : Env) (ts : List Trade) :
    (checkOvertrading s env ts).thresholds = s.thresholds := by
  unfold checkOvertrading; dsimp only; split <;> rfl

lemma thresholds_checkLossStreak (s : EngineState) (ts : List Trade) :
    (checkLossStreak s ts).thresholds = s.thresholds := by
  unfold checkLossStreak; dsimp only; split <;> rfl

lemma thresholds_checkRapidTrading (s : EngineState) (ts : List Trade) :
    (checkRapidTrading s ts).thresholds = s.thresholds := by
  unfold checkRapidTrading; dsimp only; split <;> rfl

lemma thresholds_checkMartingalePattern (s : EngineState) (ts : List Trade) :
    (checkMartingalePattern s ts).thresholds = s.thresholds := by
  unfold checkMartingalePattern; dsimp only; split <;> rfl

lemma thresholds_checkBalanceDepletion (s : EngineState) (cb : ℚ) (ib : Option ℚ) :
    (checkBalanceDepletion s cb ib).thresholds = s.thresholds := by
  unfold checkBalanceDepletion
  cases ib with
  | none => rfl
  | some b => dsimp only; split_ifs <;> rfl

lemma thresholds_checkBotActivity (s : EngineState) (ts : List Trade) :
    (checkBotActivity s ts).thresholds = s.thresholds := by
  unfold checkBotActivity; dsimp only; split <;> rfl

lemma thresholds_checkUnusualHours (s : EngineState) (env : Env) (ts : List Trade) :
    (checkUnusualHours s env ts).thresholds = s.thresholds := by
  unfold checkUnusualHours; dsimp only; split <;> rfl

lemma thresholds_runDetectors (s : EngineState) (env : Env) (ts : List Trade)
    (cb : ℚ) (ib : Option ℚ) :
    (runDetectors s env ts cb ib).thresholds = s.thresholds := by
  unfold runDetectors
  rw [thresholds_checkUnusualHours, thresholds_checkBotActivity,
    thresholds_checkBalanceDepletion, thresholds_checkMartingalePattern,
    thresholds_checkRapidTrading, thresholds_checkLossStreak,
    thresholds_checkOvertrading]

lemma analyzeTradeHistory_thresholds (s : EngineState) (env : Env)
    (tr : Option (List Trade)) (cb : ℚ) (ib : Option ℚ) :
    (analyzeTradeHistory s env tr cb ib).1.thresholds = s.thresholds := by
  unfold analyzeTradeHistory
  cases tr with
  | none => rfl
  | some ts =>
    by_cases h : ts.isEmpty <;> simp [h, thresholds_runDetectors]

lemma analyzeTradeHistory_reset (th : Thresholds) (w : List Warning) (env : Env)
    (tr : Option (List Trade)) (cb : ℚ) (ib : Option ℚ) :
    analyzeTradeHistory ⟨th, w⟩ env tr cb ib = analyzeTradeHistory ⟨th, []⟩ env tr cb ib := rfl

lemma analyzeTradeHistory_nonempty (s : EngineState) (env : Env) (trades : List Trade)
    (cb : ℚ) (ib : Option ℚ) (h : trades ≠ []) :
    analyzeTradeHistory s env (some trades) cb ib
      = (runDetectors { s with warnings := [] } env trades cb ib,
         ⟨(runDetectors { s with warnings := [] } env trades cb ib).warnings,
          calculateOverallRiskScore (runDetectors { s with warnings := [] } env trades cb ib),
          some (getRiskLevel (calculateOverallRiskScore
            (runDetectors { s with warnings := [] } env trades cb ib)))⟩) := by
  have hne : trades.isEmpty = false := by
    cases trades with
    | nil => exact absurd rfl h
    | cons a l => rfl
  simp [analyzeTradeHistory, hne]

lemma calculateOverallRiskScore_le (s : EngineState) :
    calculateOverallRiskScore s ≤ 100 := by
  unfold calculateOverallRiskScore
  exact min_le_right _ _

lemma getRiskLevel_cutoffs (n : ℕ) :
    (getRiskLevel n = RiskLevel.critical ↔ 70 ≤ n) ∧
    (getRiskLevel n = RiskLevel.high ↔ 40 ≤ n ∧ n < 70) ∧
    (getRiskLevel n = RiskLevel.medium ↔ 20 ≤ n ∧ n < 40) ∧
    (getRiskLevel n = RiskLevel.low ↔ n < 20) := by
  unfold getRiskLevel
  refine ⟨?_, ?_, ?_, ?_⟩ <;> split_ifs <;> simp <;> omega

lemma getRiskLevel_mono : ∀ a b : ℕ, a ≤ b →
    levelRank (getRiskLevel a) ≤ levelRank (getRiskLevel b) := by
  intro a b hab
  unfold getRiskLevel
  split_ifs <;> simp [levelRank] <;> omega

instance : IsTotal Trade (fun a b => a.purchase_time ≤ b.purchase_time) :=
  ⟨fun a b => le_total a.purchase_time b.purchase_time⟩

instance : IsTrans Trade (fun a b => a.purchase_time ≤ b.purchase_time) :=
  ⟨fun _ _ _ => le_trans⟩

/-! ### Sample inputs used by the concrete parts of the claims -/

/-- An environment in which no trade falls on the current day and every
trade falls at noon, so the two time-of-day detectors stay silent. -/
def constEnv : Env where
  today := 0
  dayOf := fun _ => 1
  hourOf := fun _ => 12

/-- Five consecutive losing trades with stake 10 and payout 8. -/
def fiveLosses : List Trade :=
  [⟨1, 10, 8⟩, ⟨2, 10, 8⟩, ⟨3, 10, 8⟩, ⟨4, 10, 8⟩, ⟨5, 10, 8⟩]

/-- Eight consecutive losing trades with stake 10 and payout 8. -/
def eightLosses : List Trade :=
  [⟨1, 10, 8⟩, ⟨2, 10, 8⟩, ⟨3, 10, 8⟩, ⟨4, 10, 8⟩,
   ⟨5, 10, 8⟩, ⟨6, 10, 8⟩, ⟨7, 10, 8⟩, ⟨8, 10, 8⟩]

/-- The spec's martingale example: stakes 10 (loss), 20, 10 (loss), 18,
10 (loss), 20 in time order, with the even-numbered trades profitable. -/
def martingaleTrades : List Trade :=
  [⟨1, 10, 5⟩, ⟨2, 20, 40⟩, ⟨3, 10, 5⟩, ⟨4, 18, 36⟩, ⟨5, 10, 5⟩, ⟨6, 20, 40⟩]

/-- A single losing trade, a minimal non-empty history. -/
def sampleTrades : List Trade := [⟨1, 10, 8⟩]

/-! ### Claims -/

/-- C1: for a non-empty trade list the returned riskScore is the sum,
over the run's warnings, of the points LOW = 5, MEDIUM = 15, HIGH = 30,
CRITICAL = 50, clamped at 100, and the returned riskLevel is derived from
that same score by the cutoffs 70 / 40 / 20. -/
theorem claim_C1 : ∀ (s : EngineState) (env : Env) (trades : List Trade) (cb : ℚ)
    (ib : Option ℚ), trades ≠ [] →
    ((analyzeTradeHistory s env (some trades) cb ib).2).riskScore
        = min (((analyzeTradeHistory s env (some trades) cb ib).2.warnings.map
            (fun w => severityPoints w.level)).sum) 100 ∧
    severityPoints RiskLevel.low = 5 ∧ severityPoints RiskLevel.medium = 15 ∧
    severityPoints RiskLevel.high = 30 ∧ severityPoints RiskLevel.critical = 50 ∧
    ((analyzeTradeHistory s env (some trades) cb ib).2).riskLevel
        = some (getRiskLevel ((analyzeTradeHistory s env (some trades) cb ib).2).riskScore) ∧
    (∀ n : ℕ, (getRiskLevel n = RiskLevel.critical ↔ 70 ≤ n) ∧
      (getRiskLevel n = RiskLevel.high ↔ 40 ≤ n ∧ n < 70) ∧
      (getRiskLevel n = RiskLevel.medium ↔ 20 ≤ n ∧ n < 40) ∧
      (getRiskLevel n = RiskLevel.low ↔ n < 20)) := by
  intro s env trades cb ib h
  rw [analyzeTradeHistory_nonempty s env trades cb ib h]
  exact ⟨calculateOverallRiskScore_eq _, rfl, rfl, rfl, rfl, rfl, getRiskLevel_cutoffs⟩

/-- C1 witness: the theorem instantiated at a concrete engine, environment
and one-trade history. -/
theorem claim_C1_witness :
    ((analyzeTradeHistory newEngineState constEnv (some sampleTrades) 100 none).2).riskScore
        = min (((analyzeTradeHistory newEngineState constEnv (some sampleTrades) 100
            none).2.warnings.map (fun w => severityPoints w.level)).sum) 100 ∧
    severityPoints RiskLevel.low = 5 ∧ severityPoints RiskLevel.medium = 15 ∧
    severityPoints RiskLevel.high = 30 ∧ severityPoints RiskLevel.critical = 50 ∧
    ((analyzeTradeHistory newEngineState constEnv (some sampleTrades) 100 none).2).riskLevel
        = some (getRiskLevel ((analyzeTradeHistory newEngineState constEnv
            (some sampleTrades) 100 none).2).riskScore) ∧
    (∀ n : ℕ, (getRiskLevel n = RiskLevel.critical ↔ 70 ≤ n) ∧
      (getRiskLevel n = RiskLevel.high ↔ 40 ≤ n ∧ n < 70) ∧
      (getRiskLevel n = RiskLevel.medium ↔ 20 ≤ n ∧ n < 40) ∧
      (getRiskLevel n = RiskLevel.low ↔ n < 20)) :=
  claim_C1 newEngineState constEnv sampleTrades 100 none (by simp [sampleTrades])

/-- C2: with the trade list absent or empty, `analyzeTradeHistory` resets
the run-scoped warning list and returns exactly
`{ warnings: [], riskScore: 0 }` with no `riskLevel` field; no detector is
invoked (the post-state is the reset state, untouched by any detector). -/
theorem claim_C2 : ∀ (s : EngineState) (env : Env) (cb : ℚ) (ib : Option ℚ),
    analyzeTradeHistory s env none cb ib = ({ s with warnings := [] }, ⟨[], 0, none⟩) ∧
    analyzeTradeHistory s env (some []) cb ib = ({ s with warnings := [] }, ⟨[], 0, none⟩) := by
  intro s env cb ib
  exact ⟨rfl, rfl⟩

/-- C3: the balance-depletion half of the claim holds (absent or zero
`initialBalance` emits no warning), but the exposure half fails on the
code: with `balance = 0` the source divides by zero, so a position with
stake 150 produces a CRITICAL `large_position` warning whose value is the
JS `Infinity`, instead of being skipped. -/
theorem claim_C3 :
    (∀ (s : EngineState) (cb : ℚ),
      checkBalanceDepletion s cb none = s ∧ checkBalanceDepletion s cb (some 0) = s) ∧
    (analyzeOpenPositions newEngineState [⟨150, 7⟩] 0).2
      = [⟨RiskType.large_position, RiskLevel.critical, ExtNum.posInf, 7⟩] := by
  constructor
  · intro s cb
    exact ⟨rfl, by simp [checkBalanceDepletion]⟩
  · decide

/-- C8: `analyzeTradeHistory` carries no hidden state across calls: its
full result is independent of the run-scoped warning list left by any
earlier call (first conjunct), and a second call on the state produced by a
first call with the same inputs returns the identical result (second
conjunct). -/
theorem claim_C8 : ∀ (th : Thresholds) (w1 w2 : List Warning) (env : Env)
    (tr : Option (List Trade)) (cb : ℚ) (ib : Option ℚ),
    (analyzeTradeHistory ⟨th, w1⟩ env tr cb ib).2
        = (analyzeTradeHistory ⟨th, w2⟩ env tr cb ib).2 ∧
    (analyzeTradeHistory (analyzeTradeHistory ⟨th, w1⟩ env tr cb ib).1 env tr cb ib).2
        = (analyzeTradeHistory ⟨th, w1⟩ env tr cb ib).2 := by
  intro th w1 w2 env tr cb ib
  constructor
  · rw [analyzeTradeHistory_reset th w1, analyzeTradeHistory_reset th w2]
  · have hth := analyzeTradeHistory_thresholds ⟨th, w1⟩ env tr cb ib
    calc (analyzeTradeHistory (analyzeTradeHistory ⟨th, w1⟩ env tr cb ib).1 env tr cb ib).2
        = (analyzeTradeHistory ⟨(analyzeTradeHistory ⟨th, w1⟩ env tr cb ib).1.thresholds,
            (analyzeTradeHistory ⟨th, w1⟩ env tr cb ib).1.warnings⟩ env tr cb ib).2 := rfl
      _ = (analyzeTradeHistory ⟨th,
            (analyzeTradeHistory ⟨th, w1⟩ env tr cb ib).1.warnings⟩ env tr cb ib).2 := by
            rw [hth]
      _ = (analyzeTradeHistory ⟨th, w1⟩ env tr cb ib).2 := by
            rw [analyzeTradeHistory_reset th
              (analyzeTradeHistory ⟨th, w1⟩ env tr cb ib).1.warnings,
              analyzeTradeHistory_reset th w1]

/-- C10: `analyzeOpenPositions` never modifies the engine state — it leaves
the threshold configuration and the run-scoped warning list unchanged — so
an `analyzeTradeHistory` call returns the same result whether or not an
`analyzeOpenPositions` call is interleaved before it. -/
theorem claim_C10 : ∀ (s : EngineState) (positions : List Position) (balance : ℚ)
    (env : Env) (tr : Option (List Trade)) (cb : ℚ) (ib : Option ℚ),
    (analyzeOpenPositions s positions balance).1 = s ∧
    analyzeTradeHistory (analyzeOpenPositions s positions balance).1 env tr cb ib
      = analyzeTradeHistory s env tr cb ib := by
  intro s positions balance env tr cb ib
  exact ⟨rfl, rfl⟩

/-- C4: the loss-streak detector scans the trades in their given order,
counting consecutive losses (a tie is not a loss) and tracking the maximum
streak; it appends exactly one warning iff the maximum streak reaches
`maxLossStreak`, carrying the maximum streak as value, CRITICAL from 8 up,
else HIGH.  In particular five consecutive losses under the default
threshold 5 give one HIGH warning with value 5, and eight give CRITICAL. -/
theorem claim_C4 :
    (∀ (s : EngineState) (trades : List Trade),
      checkLossStreak s trades =
        if (maxLossRunSpec trades : ℚ) ≥ s.thresholds.maxLossStreak then
          pushWarning s ⟨RiskType.high_loss_streak,
            if 8 ≤ maxLossRunSpec trades then RiskLevel.critical else RiskLevel.high,
            (maxLossRunSpec trades : ℚ), false⟩
        else s) ∧
    (checkLossStreak newEngineState fiveLosses).warnings
      = [⟨RiskType.high_loss_streak, RiskLevel.high, 5, false⟩] ∧
    (checkLossStreak newEngineState eightLosses).warnings
      = [⟨RiskType.high_loss_streak, RiskLevel.critical, 8, false⟩] := by
  refine ⟨?_, ?_, ?_⟩
  · intro s trades
    unfold checkLossStreak
    dsimp only
    rw [maxLossRun_eq_scan]
  · decide
  · decide

/-- C5: the martingale detector sorts a copy by purchase time and counts
the adjacent pairs whose earlier trade is a loss and whose later stake is
at least the earlier stake times the multiplier; it appends exactly one
CRITICAL warning iff that count reaches 3, with the count as value.  The
pair condition ignores the later trade's payout, and the spec's worked
example yields exactly one CRITICAL warning with value 3. -/
theorem claim_C5 :
    (∀ (s : EngineState) (trades : List Trade),
      checkMartingalePattern s trades =
        if 3 ≤ zipPairCount (martingalePred s.thresholds.martingaleMultiplier)
            (sortByTime trades) then
          pushWarning s ⟨RiskType.martingale_pattern, RiskLevel.critical,
            (zipPairCount (martingalePred s.thresholds.martingaleMultiplier)
              (sortByTime trades) : ℚ), false⟩
        else s) ∧
    (∀ (mult : ℚ) (a b : Trade) (q : ℚ),
      martingalePred mult a { b with sell_price := q } = martingalePred mult a b) ∧
    (checkMartingalePattern newEngineState martingaleTrades).warnings
      = [⟨RiskType.martingale_pattern, RiskLevel.critical, 3, false⟩] := by
  refine ⟨?_, ?_, ?_⟩
  · intro s trades
    unfold checkMartingalePattern
    dsimp only
    rw [adjacentCount_eq_zipPairCount]
  · intro mult a b q
    rfl
  · norm_num [checkMartingalePattern, sortByTime, List.insertionSort, List.orderedInsert,
      adjacentCount, martingalePred, isLoss, newEngineState, defaultThresholds,
      pushWarning, martingaleTrades]

/-- C6: with a positive balance, the exposure evaluator emits, per position
independently, a warning exactly when `buy_price / balance * 100` exceeds
`maxPositionPercent`, CRITICAL above 25 else HIGH, carrying the contract id
and the percent; the state is returned untouched, so nothing feeds the
orchestrator's score.  The spec's example: stake 150 of balance 1000 is a
HIGH warning at 15%, stake 300 a CRITICAL one at 30%. -/
theorem claim_C6 :
    (∀ (s : EngineState) (positions : List Position) (balance : ℚ), 0 < balance →
      analyzeOpenPositions s positions balance =
        (s, positions.filterMap (fun p =>
          if p.buy_price / balance * 100 > s.thresholds.maxPositionPercent then
            some ⟨RiskType.large_position,
              if p.buy_price / balance * 100 > 25 then RiskLevel.critical else RiskLevel.high,
              ExtNum.fin (p.buy_price / balance * 100), p.contract_id⟩
          else none))) ∧
    (analyzeOpenPositions newEngineState [⟨150, 1⟩, ⟨300, 2⟩] 1000).2
      = [⟨RiskType.large_position, RiskLevel.high, ExtNum.fin 15, 1⟩,
         ⟨RiskType.large_position, RiskLevel.critical, ExtNum.fin 30, 2⟩] := by
  constructor
  · intro s positions balance hb
    have hb0 : ¬ balance = 0 := ne_of_gt hb
    unfold analyzeOpenPositions
    have hfn : (fun position : Position =>
        let positionPercent := extMul100 (extDiv position.buy_price balance)
        if extGt positionPercent s.thresholds.maxPositionPercent then
          some (⟨RiskType.large_position,
            if extGt positionPercent 25 then RiskLevel.critical else RiskLevel.high,
            positionPercent, position.contract_id⟩ : PositionWarning)
        else none)
        = (fun p : Position =>
          if p.buy_price / balance * 100 > s.thresholds.maxPositionPercent then
            some (⟨RiskType.large_position,
              if p.buy_price / balance * 100 > 25 then RiskLevel.critical else RiskLevel.high,
              ExtNum.fin (p.buy_price / balance * 100), p.contract_id⟩ : PositionWarning)
          else none) := by
      funext p
      simp [extDiv, hb0, extMul100, extGt]
    rw [hfn]
  · norm_num [analyzeOpenPositions, extDiv, extMul100, extGt,
      newEngineState, defaultThresholds, List.filterMap_cons]

/-- C6 witness: the theorem's general part applied at balance 1000 and the
two example positions. -/
theorem claim_C6_witness :
    0 < (1000 : ℚ) ∧
    analyzeOpenPositions newEngineState ([⟨150, 1⟩, ⟨300, 2⟩] : List Position) 1000 =
      (newEngineState, List.filterMap (fun p =>
        if p.buy_price / 1000 * 100 > newEngineState.thresholds.maxPositionPercent then
          some (⟨RiskType.large_position,
            if p.buy_price / 1000 * 100 > 25 then RiskLevel.critical else RiskLevel.high,
            ExtNum.fin (p.buy_price / 1000 * 100), p.contract_id⟩ : PositionWarning)
        else none) ([⟨150, 1⟩, ⟨300, 2⟩] : List Position)) := by
  refine ⟨by norm_num, ?_⟩
  exact claim_C6.1 _ _ 1000 (by norm_num)

/-- C7: for a non-empty trade list the riskScore lies in [0, 100], and the
riskLevel is the pure step function `getRiskLevel` of that same score,
monotonically non-decreasing in the score. -/
theorem claim_C7 : ∀ (s : EngineState) (env : Env) (trades : List Trade) (cb : ℚ)
    (ib : Option ℚ), trades ≠ [] →
    (0 ≤ ((analyzeTradeHistory s env (some trades) cb ib).2).riskScore ∧
      ((analyzeTradeHistory s env (some trades) cb ib).2).riskScore ≤ 100) ∧
    ((analyzeTradeHistory s env (some trades) cb ib).2).riskLevel
      = some (getRiskLevel ((analyzeTradeHistory s env (some trades) cb ib).2).riskScore) ∧
    (∀ a b : ℕ, a ≤ b → levelRank (getRiskLevel a) ≤ levelRank (getRiskLevel b)) := by
  intro s env trades cb ib h
  rw [analyzeTradeHistory_nonempty s env trades cb ib h]
  exact ⟨⟨Nat.zero_le _, calculateOverallRiskScore_le _⟩, rfl, getRiskLevel_mono⟩

/-- C7 witness: the theorem instantiated at a concrete engine, environment
and one-trade history. -/
theorem claim_C7_witness :
    (0 ≤ ((analyzeTradeHistory newEngineState constEnv (some sampleTrades) 100
        none).2).riskScore ∧
      ((analyzeTradeHistory newEngineState constEnv (some sampleTrades) 100
        none).2).riskScore ≤ 100) ∧
    ((analyzeTradeHistory newEngineState constEnv (some sampleTrades) 100 none).2).riskLevel
      = some (getRiskLevel ((analyzeTradeHistory newEngineState constEnv
          (some sampleTrades) 100 none).2).riskScore) ∧
    (∀ a b : ℕ, a ≤ b → levelRank (getRiskLevel a) ≤ levelRank (getRiskLevel b)) :=
  claim_C7 newEngineState constEnv sampleTrades 100 none (by simp [sampleTrades])

/-- C9: the bot-activity detector sorts a copy by purchase time, examines
only the first min(20, n) trades — the earliest twenty by time, since the
sorted copy is an ascending permutation of the input — counts adjacent gaps
of at most `botTradeInterval` seconds, and appends exactly one MEDIUM
warning with `isBotLikely` and the count as value iff the count reaches 5. -/
theorem claim_C9 : ∀ (s : EngineState) (trades : List Trade),
    checkBotActivity s trades =
      (if 5 ≤ zipPairCount
          (fun a b => decide (b.purchase_time - a.purchase_time ≤ s.thresholds.botTradeInterval))
          ((sortByTime trades).take 20) then
        pushWarning s ⟨RiskType.bot_activity, RiskLevel.medium,
          (zipPairCount
            (fun a b => decide (b.purchase_time - a.purchase_time ≤ s.thresholds.botTradeInterval))
            ((sortByTime trades).take 20) : ℚ), true⟩
      else s) ∧
    (sortByTime trades).Perm trades ∧
    List.Pairwise (fun a b : Trade => a.purchase_time ≤ b.purchase_time) (sortByTime trades) := by
  intro s trades
  refine ⟨?_, List.perm_insertionSort _ _, List.sorted_insertionSort _ _⟩
  unfold checkBotActivity
  dsimp only
  rw [take_min_length, adjacentCount_eq_zipPairCount]

end RiskEngineModel
